import Mathlib

/-!
# GameSync core: shallow embedding and verification

A shallow embedding of the GameSync Steam-integration core
(`src/services/steamApi.js`, the `GameCache` utility and `config/api.js`),
together with theorems settling the frozen claims about it.

Modelling conventions:
* JavaScript values reaching the validator are modelled by `JSValue`;
  `jsToString` models the `String(x)` coercion performed by
  `RegExp.prototype.test`.  Numbers are modelled as integers carrying their
  decimal rendering, which agrees with JavaScript for integer-valued doubles
  that are exactly representable (all inputs used here are).
* Times are integers (milliseconds, as produced by `Date.now()`).
* The injected `fetch` transport is modelled by `TransportOutcome`: either the
  promise rejected with a JS error, or it resolved with `{ok, status, json()}`.
* Thrown JS errors are modelled structurally as `JsError` (name and message),
  since `makeRequest`'s catch block branches on `error.name` and
  `error.message.includes('fetch')`.
* The mutable service/cache state is threaded explicitly through `ApiState`.
-/

/-- A JavaScript value as it may reach `validateSteamId`.  `num n` stands for
an integer-valued double whose `String()` rendering is the decimal numeral of
`n` (exact for the inputs considered here). -/
inductive JSValue where
  | str (s : String)
  | num (n : Int)
  | boolean (b : Bool)
  | null
  | undef
deriving DecidableEq, Repr

/-- The JavaScript `String(x)` coercion applied by `RegExp.prototype.test`. -/
def jsToString : JSValue → String
  | .str s => s
  | .num n => toString n
  | .boolean b => if b then "true" else "false"
  | .null => "null"
  | .undef => "undefined"

/-- Semantics of the regular expression `^\d{17}$`: the whole string is
exactly 17 decimal digits. -/
def isSteamIdFormat (s : String) : Bool :=
  s.length == 17 && s.toList.all Char.isDigit

/-- `validateSteamId` from `steamApi.js` (line 40): `/^\d{17}$/.test(steamId)`.
`RegExp.prototype.test` first coerces its argument with `String(...)`. -/
def validateSteamId (v : JSValue) : Bool :=
  isSteamIdFormat (jsToString v)

/-- `validateSteamId` restricted to string arguments. -/
def validateSteamIdStr (s : String) : Bool :=
  validateSteamId (.str s)

/-- A thrown JavaScript error: its `name` and `message` fields, which are the
only fields `makeRequest`'s catch block inspects. -/
structure JsError where
  name : String
  message : String
deriving DecidableEq, Repr

/-- `new Error(STEAM_ERRORS.PRIVATE_PROFILE)` (config/api.js). -/
def PRIVATE_PROFILE : JsError := ⟨"Error", "PRIVATE_PROFILE"⟩

/-- `new Error(STEAM_ERRORS.INVALID_STEAM_ID)`. -/
def INVALID_STEAM_ID : JsError := ⟨"Error", "INVALID_STEAM_ID"⟩

/-- `new Error(STEAM_ERRORS.RATE_LIMIT_EXCEEDED)`. -/
def RATE_LIMIT_EXCEEDED : JsError := ⟨"Error", "RATE_LIMIT_EXCEEDED"⟩

/-- `new Error(STEAM_ERRORS.API_UNAVAILABLE)`. -/
def API_UNAVAILABLE : JsError := ⟨"Error", "API_UNAVAILABLE"⟩

/-- `new Error(STEAM_ERRORS.NETWORK_ERROR)`. -/
def NETWORK_ERROR : JsError := ⟨"Error", "NETWORK_ERROR"⟩

/-- The error thrown by `findOverlappingGames` for fewer than two ids. -/
def INSUFFICIENT_IDS : JsError := ⟨"Error", "At least 2 Steam IDs required to find overlaps"⟩

/-- `segStarts pat l` : `pat` is an initial segment of `l`. -/
def segStarts : List Char → List Char → Bool
  | [], _ => true
  | _ :: _, [] => false
  | p :: ps, c :: cs => p == c && segStarts ps cs

/-- `segOccurs pat l` : `pat` occurs contiguously somewhere in `l`. -/
def segOccurs (pat : List Char) : List Char → Bool
  | [] => segStarts pat []
  | c :: cs => segStarts pat (c :: cs) || segOccurs pat cs

/-- JavaScript `hay.includes(pat)` on strings. -/
def strIncludes (hay pat : String) : Bool :=
  segOccurs pat.toList hay.toList

/-- A raw game record from the owned-games wire shape; optional fields are
`Option`s (`none` = absent). -/
structure RawGame where
  appid : Int
  name : String
  playtime_forever : Option Int
  playtime_2weeks : Option Int
  img_icon_url : Option String
  img_logo_url : Option String
  has_community_visible_stats : Option Bool
deriving DecidableEq, Repr

/-- A `RawGame` with every optional field absent. -/
def mkGame (appid : Int) (name : String) : RawGame :=
  ⟨appid, name, none, none, none, none, none⟩

/-- The `response` object of the owned-games wire shape. -/
structure OwnedGamesResponse where
  game_count : Option Int
  games : Option (List RawGame)
deriving DecidableEq, Repr

/-- The owned-games response body: `{ response?: {...} }` (`none` models an
absent or null `response` field, which is falsy in JS). -/
structure OwnedGamesBody where
  response : Option OwnedGamesResponse
deriving DecidableEq, Repr

instance {ε α : Type} [DecidableEq ε] [DecidableEq α] : DecidableEq (Except ε α) := fun a b =>
  match a, b with
  | .error e1, .error e2 =>
    decidable_of_iff (e1 = e2) ⟨fun h => by rw [h], fun h => by injection h⟩
  | .error _, .ok _ => isFalse (fun h => Except.noConfusion h)
  | .ok a1, .ok a2 =>
    decidable_of_iff (a1 = a2) ⟨fun h => by rw [h], fun h => by injection h⟩
  | .ok _, .error _ => isFalse (fun h => Except.noConfusion h)

/-- Outcome of one call to the injected `fetch` transport: the promise
rejected (`threw`), or resolved with `{ok, status}` and a `json()` method that
itself either throws or yields the parsed body. -/
inductive TransportOutcome where
  | threw (e : JsError)
  | reply (ok : Bool) (status : Int) (body : Except JsError OwnedGamesBody)
deriving DecidableEq, Repr

/-- The body of `makeRequest`'s `try` block (steamApi.js lines 53-67): status
classification for a non-ok response, otherwise the parsed json body. -/
def makeRequestCore (t : TransportOutcome) : Except JsError OwnedGamesBody :=
  match t with
  | .threw e => .error e
  | .reply ok status body =>
    if !ok then
      if status == 429 then .error RATE_LIMIT_EXCEEDED
      else if status == 403 then .error PRIVATE_PROFILE
      else .error API_UNAVAILABLE
    else body

/-- `makeRequest`'s catch block (lines 68-73): errors whose `name` is
`TypeError` or whose message contains `fetch` become `NETWORK_ERROR`; all
other errors are rethrown unchanged. -/
def classifyCatch (e : JsError) : JsError :=
  if e.name == "TypeError" || strIncludes e.message "fetch" then NETWORK_ERROR else e

/-- `makeRequest` (steamApi.js lines 50-74), with the rate-limit state update
factored into the caller (`getOwnedGames` below). -/
def makeRequest (t : TransportOutcome) : Except JsError OwnedGamesBody :=
  match makeRequestCore t with
  | .error e => .error (classifyCatch e)
  | .ok d => .ok d

/-- One cache slot: `{data, timestamp}` as stored by `GameCache.set`. -/
structure CacheEntry (α : Type) where
  data : α
  timestamp : Int
deriving DecidableEq, Repr

/-- The `GameCache` class: a map from string keys to entries (modelled as an
association list with JS-`Map` lookup semantics) plus the configured TTL
(`STEAM_CONFIG.CACHE_DURATION`). -/
structure GameCache (α : Type) where
  entries : List (String × CacheEntry α)
  cacheDuration : Int
deriving DecidableEq, Repr

/-- `GameCache.generateKey`. -/
def generateKey (steamId requestType : String) : String :=
  "steam_" ++ requestType ++ "_" ++ steamId

/-- JS `Map.delete` on the association-list model. -/
def mapDelete {α : Type} (k : String) (m : List (String × α)) : List (String × α) :=
  m.filter (fun p => p.1 != k)

/-- JS `Map.set` on the association-list model: overwrite any entry for `k`. -/
def mapSet {α : Type} (k : String) (v : α) (m : List (String × α)) : List (String × α) :=
  mapDelete k m ++ [(k, v)]

/-- `GameCache.get` (lines 199-214 of the combined utils file): miss on an
absent key; lazily evict and miss when `now - timestamp > cacheDuration`;
otherwise return the stored payload unchanged.  Returns the possibly-mutated
cache alongside the result. -/
def cacheGet {α : Type} (c : GameCache α) (steamId requestType : String) (now : Int) :
    Option α × GameCache α :=
  let key := generateKey steamId requestType
  match c.entries.lookup key with
  | none => (none, c)
  | some entry =>
    if now - entry.timestamp > c.cacheDuration then
      (none, { c with entries := mapDelete key c.entries })
    else
      (some entry.data, c)

/-- `GameCache.set` (lines 222-228): unconditionally store `{data, now}`. -/
def cacheSet {α : Type} (c : GameCache α) (steamId : String) (data : α)
    (requestType : String) (now : Int) : GameCache α :=
  { c with entries := mapSet (generateKey steamId requestType) ⟨data, now⟩ c.entries }

/-- JavaScript `x || d` for an optional number field (`0` is falsy). -/
def jsOr (v : Option Int) (d : Int) : Int :=
  match v with
  | none => d
  | some n => if n == 0 then d else n

/-- The `LibrarySnapshot` built on `getOwnedGames`'s success path
(steamApi.js lines 113-118); `fetchedAt` is the capture time. -/
structure Snapshot where
  steamId : String
  gameCount : Int
  games : List RawGame
  fetchedAt : Int
deriving DecidableEq, Repr

/-- The mutable state touched by `getOwnedGames`: the singleton `gameCache`
(under kind "games") and the service counters (`requestCount`,
`lastRequestTime` are the rate limiter's state; `transportCalls` counts calls
to the injected `fetch`). -/
structure ApiState where
  gamesCache : GameCache Snapshot
  requestCount : Nat
  lastRequestTime : Int
  transportCalls : Nat
deriving DecidableEq, Repr

/-- `getOwnedGames` (steamApi.js lines 82-127).  `transport` is the outcome
the injected `fetch` would produce if called during this invocation; `now` is
the current time.  Returns the result together with the updated state. -/
def getOwnedGames (st : ApiState) (steamId : String) (useCache : Bool)
    (transport : TransportOutcome) (now : Int) : Except JsError Snapshot × ApiState :=
  if !(validateSteamIdStr steamId) then
    (.error INVALID_STEAM_ID, st)
  else
    let cacheRes :=
      if useCache then cacheGet st.gamesCache steamId "games" now
      else (none, st.gamesCache)
    let st1 : ApiState := { st with gamesCache := cacheRes.2 }
    match cacheRes.1 with
    | some snap => (.ok snap, st1)
    | none =>
      let st2 : ApiState :=
        { st1 with
          requestCount := st1.requestCount + 1
          lastRequestTime := now
          transportCalls := st1.transportCalls + 1 }
      match makeRequest transport with
      | .error e => (.error e, st2)
      | .ok data =>
        match data.response with
        | none => (.error PRIVATE_PROFILE, st2)
        | some r =>
          match r.games with
          | none => (.error PRIVATE_PROFILE, st2)
          | some gs =>
            let snap : Snapshot := ⟨steamId, jsOr r.game_count 0, gs, now⟩
            (.ok snap,
             { st2 with gamesCache := cacheSet st2.gamesCache steamId snap "games" now })

/-- One fetched library as accumulated by `findOverlappingGames`'s loop:
the id and its game list (empty when the fetch failed). -/
structure LibEntry where
  steamId : String
  games : List RawGame
deriving DecidableEq, Repr

/-- An `OverlapResult` record (steamApi.js lines 239-244). -/
structure OverlapGame where
  appId : Int
  name : String
  imgIconUrl : Option String
  ownedBy : Nat
deriving DecidableEq, Repr

/-- The fetch loop of `findOverlappingGames` (lines 207-223): sequentially
fetch each library; a failed fetch contributes an empty game list and the
loop continues.  `fetch` abstracts `this.getOwnedGames` over an arbitrary
threaded state `σ`. -/
def fetchLibraries {σ : Type} (fetch : String → σ → Except JsError Snapshot × σ) :
    List String → σ → List LibEntry × σ
  | [], s => ([], s)
  | id :: rest, s =>
    let r := fetch id s
    let entry : LibEntry :=
      match r.1 with
      | .ok lib => ⟨id, lib.games⟩
      | .error _ => ⟨id, []⟩
    let others := fetchLibraries fetch rest r.2
    (entry :: others.1, others.2)

/-- The intersection step of `findOverlappingGames` (lines 226-248): keep each
game of the first library that appears (by `appid`) in every fetched library,
and emit one record per survivor with `ownedBy = requested`, in first-library
order. -/
def computeOverlaps (requested : Nat) (libraries : List LibEntry) : List OverlapGame :=
  match libraries with
  | [] => []
  | first :: _ =>
    (first.games.filter (fun g =>
        libraries.all (fun lib => lib.games.any (fun g2 => g2.appid == g.appid)))).map
      (fun g => ⟨g.appid, g.name, g.img_icon_url, requested⟩)

/-- `findOverlappingGames` (steamApi.js lines 199-249).  The argument is an
`Option` so that an absent/null argument (`!steamIds`) is representable. -/
def findOverlappingGames {σ : Type} (fetch : String → σ → Except JsError Snapshot × σ)
    (steamIds : Option (List String)) (s : σ) : Except JsError (List OverlapGame) × σ :=
  match steamIds with
  | none => (.error INSUFFICIENT_IDS, s)
  | some ids =>
    if ids.length < 2 then (.error INSUFFICIENT_IDS, s)
    else
      let fetched := fetchLibraries fetch ids s
      (.ok (computeOverlaps ids.length fetched.1), fetched.2)

/-! ## Spec-side formulations and concrete fixtures -/

/-- The spec's `^\d{17}$` semantics, stated propositionally: a string of
exactly 17 ASCII decimal digits (code points 48 to 57). -/
def Is17DigitString (s : String) : Prop :=
  s.length = 17 ∧ ∀ c ∈ s.toList, 48 ≤ c.toNat ∧ c.toNat ≤ 57

instance (s : String) : Decidable (Is17DigitString s) := by
  unfold Is17DigitString
  infer_instance

/-- The spec's intersection algorithm, stated with propositional membership:
from the first fetched library keep, in order, the games whose `appid` occurs
in every fetched library, and emit records with `ownedBy` equal to the number
of requested identifiers. -/
def specOverlap (requested : Nat) (libraries : List LibEntry) : List OverlapGame :=
  match libraries with
  | [] => []
  | first :: rest =>
    (first.games.filter (fun g =>
        decide (∀ lib ∈ first :: rest, ∃ g2 ∈ lib.games, g2.appid = g.appid))).map
      (fun g => ⟨g.appid, g.name, g.img_icon_url, requested⟩)

/-- A fresh service state: empty cache with the configured one-hour TTL
(`STEAM_CONFIG.CACHE_DURATION = 3600000` ms), zero counters. -/
def emptySt : ApiState := ⟨⟨[], 3600000⟩, 0, 0, 0⟩

/-- A well-formed 17-digit identifier (the one used throughout the repo's
tests). -/
def vid : String := "76561198001234567"

/-- Second well-formed identifier. -/
def vid2 : String := "76561198001234568"

/-- Library A fixture: Counter-Strike 2 with an icon reference. -/
def gameA1 : RawGame := ⟨730, "Counter-Strike 2", none, none, some "icon730", none, none⟩

/-- Library A fixture: Dota 2. -/
def gameA2 : RawGame := mkGame 570 "Dota 2"

/-- Library A fixture: Team Fortress 2. -/
def gameA3 : RawGame := mkGame 440 "Team Fortress 2"

/-- Library B fixture: a game only B owns. -/
def gameB3 : RawGame := mkGame 1086940 "Baldurs Gate 3"

/-- A duplicate Counter-Strike 2 record with a different icon. -/
def gameA1dup : RawGame := ⟨730, "Counter-Strike 2", none, none, some "icon730b", none, none⟩

/-- Fetch fixture for the spec's worked example: library A = {730, 570, 440}
for `vid`, library B = {730, 570, 1086940} otherwise. -/
def fetchAB : String → Unit → Except JsError Snapshot × Unit := fun id s =>
  if id == vid then (.ok ⟨vid, 3, [gameA1, gameA2, gameA3], 0⟩, s)
  else (.ok ⟨vid2, 3, [gameA1, gameA2, gameB3], 0⟩, s)

/-- Fetch fixture where the second identifier's fetch fails. -/
def fetchFail2 : String → Unit → Except JsError Snapshot × Unit := fun id s =>
  if id == vid then (.ok ⟨vid, 3, [gameA1, gameA2, gameA3], 0⟩, s)
  else (.error PRIVATE_PROFILE, s)

/-- Fetch fixture whose first library holds two records with `appid` 730. -/
def fetchDup : String → Unit → Except JsError Snapshot × Unit := fun id s =>
  if id == vid then (.ok ⟨vid, 2, [gameA1, gameA1dup], 0⟩, s)
  else (.ok ⟨vid2, 1, [gameA1], 0⟩, s)

/-- A fetch over a counting state, used to observe that no fetch happens. -/
def countFetch : String → Nat → Except JsError Snapshot × Nat := fun id n =>
  (.ok ⟨id, 0, [], 0⟩, n + 1)

/-- A snapshot stored at time 0, used as a pre-existing cache entry. -/
def snapOld : Snapshot := ⟨vid, 0, [], 0⟩

/-- A state whose cache holds an entry for `(vid, "games")` written at time 0
with the one-hour TTL; at time 3600001 the entry is expired but unswept. -/
def stExp : ApiState := ⟨⟨[(generateKey vid "games", ⟨snapOld, 0⟩)], 3600000⟩, 0, 0, 0⟩

/-! ## Helper lemmas -/

theorem char_isDigit_iff (c : Char) : c.isDigit = true ↔ 48 ≤ c.toNat ∧ c.toNat ≤ 57 := by
  simp [Char.isDigit, Char.toNat, UInt32.le_def, BitVec.le_def, UInt32.toNat]

theorem lookup_mapSet_self {α : Type} (k : String) (v : α) (m : List (String × α)) :
    (mapSet k v m).lookup k = some v := by
  induction m with
  | nil => simp [mapSet, mapDelete, List.lookup]
  | cons p m ih =>
    by_cases h : p.1 = k
    · have hb : (p.1 != k) = false := by simp [bne_iff_ne, h]
      simpa [mapSet, mapDelete, List.filter_cons, hb] using ih
    · have hb : (p.1 != k) = true := by simpa [bne_iff_ne] using h
      have hk : (k == p.1) = false := by
        simp only [beq_eq_false_iff_ne, ne_eq]
        exact fun he => h he.symm
      simp only [mapSet, mapDelete, List.filter_cons, hb, if_true, List.cons_append,
        List.lookup, hk] at ih ⊢
      simpa [mapDelete] using ih

theorem lookup_mapSet_ne {α : Type} (k k2 : String) (v : α) (m : List (String × α))
    (h : k2 ≠ k) : (mapSet k v m).lookup k2 = m.lookup k2 := by
  induction m with
  | nil =>
    have hk : (k2 == k) = false := by simpa [beq_eq_false_iff_ne] using h
    simp [mapSet, mapDelete, List.lookup, hk]
  | cons p m ih =>
    by_cases hp : p.1 = k
    · have hb : (p.1 != k) = false := by simp [bne_iff_ne, hp]
      have hk2 : (k2 == p.1) = false := by
        simp only [beq_eq_false_iff_ne, ne_eq]
        exact fun he => h (he.trans hp)
      simp only [mapSet, mapDelete, List.filter_cons, hb, if_false, List.lookup, hk2] at ih ⊢
      simpa [mapDelete, List.lookup, hk2] using ih
    · have hb : (p.1 != k) = true := by simpa [bne_iff_ne] using hp
      by_cases hk2 : k2 = p.1
      · simp [mapSet, mapDelete, List.filter_cons, hb, List.lookup, hk2]
      · have hk2f : (k2 == p.1) = false := by simpa [beq_eq_false_iff_ne] using hk2
        simp only [mapSet, mapDelete, List.filter_cons, hb, if_true, List.cons_append,
          List.lookup, hk2f] at ih ⊢
        simpa [mapDelete] using ih

theorem lookup_mapDelete_self {α : Type} (k : String) (m : List (String × α)) :
    (mapDelete k m).lookup k = none := by
  induction m with
  | nil => simp [mapDelete, List.lookup]
  | cons p m ih =>
    by_cases h : p.1 = k
    · have hb : (p.1 != k) = false := by simp [bne_iff_ne, h]
      simpa [mapDelete, List.filter_cons, hb] using ih
    · have hb : (p.1 != k) = true := by simpa [bne_iff_ne] using h
      have hk : (k == p.1) = false := by
        simp only [beq_eq_false_iff_ne, ne_eq]
        exact fun he => h he.symm
      simp only [mapDelete, List.filter_cons, hb, if_true, List.lookup, hk] at ih ⊢
      simpa [mapDelete] using ih

theorem lookup_mapDelete_ne {α : Type} (k k2 : String) (m : List (String × α))
    (h : k2 ≠ k) : (mapDelete k m).lookup k2 = m.lookup k2 := by
  induction m with
  | nil => simp [mapDelete, List.lookup]
  | cons p m ih =>
    by_cases hp : p.1 = k
    · have hb : (p.1 != k) = false := by simp [bne_iff_ne, hp]
      have hk2 : (k2 == p.1) = false := by
        simp only [beq_eq_false_iff_ne, ne_eq]
        exact fun he => h (he.trans hp)
      simp only [mapDelete, List.filter_cons, hb, if_false, List.lookup, hk2] at ih ⊢
      simpa [mapDelete, List.lookup, hk2] using ih
    · have hb : (p.1 != k) = true := by simpa [bne_iff_ne] using hp
      by_cases hk2 : k2 = p.1
      · simp [mapDelete, List.filter_cons, hb, List.lookup, hk2]
      · have hk2f : (k2 == p.1) = false := by simpa [beq_eq_false_iff_ne] using hk2
        simp only [mapDelete, List.filter_cons, hb, if_true, List.lookup, hk2f] at ih ⊢
        simpa [mapDelete] using ih

theorem cacheGet_set_fresh {α : Type} (c : GameCache α) (id kind : String) (payload : α)
    (t0 t : Int) (h : t - t0 ≤ c.cacheDuration) :
    cacheGet (cacheSet c id payload kind t0) id kind t =
      (some payload, cacheSet c id payload kind t0) := by
  simp only [cacheGet, cacheSet, lookup_mapSet_self]
  rw [if_neg (by simpa using not_lt.mpr h)]

theorem cacheGet_set_expired {α : Type} (c : GameCache α) (id kind : String) (payload : α)
    (t0 t : Int) (h : t - t0 > c.cacheDuration) :
    cacheGet (cacheSet c id payload kind t0) id kind t =
      (none,
       { c with entries := mapDelete (generateKey id kind)
                  (mapSet (generateKey id kind) ⟨payload, t0⟩ c.entries) }) := by
  simp only [cacheGet, cacheSet, lookup_mapSet_self]
  rw [if_pos (by simpa using h)]

theorem cacheGet_absent {α : Type} (c : GameCache α) (id kind : String) (t : Int)
    (h : c.entries.lookup (generateKey id kind) = none) :
    cacheGet c id kind t = (none, c) := by
  simp [cacheGet, h]

theorem cacheGet_snd_duration {α : Type} (c : GameCache α) (id kind : String) (t : Int) :
    (cacheGet c id kind t).2.cacheDuration = c.cacheDuration := by
  simp only [cacheGet]
  cases h : c.entries.lookup (generateKey id kind) with
  | none => rfl
  | some entry =>
    dsimp only
    by_cases he : t - entry.timestamp > c.cacheDuration
    · rw [if_pos he]
    · rw [if_neg he]

theorem cacheGet_snd_spec {α : Type} (c : GameCache α) (id kind : String) (t : Int) :
    (∀ k, k ≠ generateKey id kind →
      (cacheGet c id kind t).2.entries.lookup k = c.entries.lookup k) ∧
    ((cacheGet c id kind t).2.entries.lookup (generateKey id kind) =
        c.entries.lookup (generateKey id kind) ∨
      ((cacheGet c id kind t).2.entries.lookup (generateKey id kind) = none ∧
        ∃ entry, c.entries.lookup (generateKey id kind) = some entry ∧
          t - entry.timestamp > c.cacheDuration)) := by
  simp only [cacheGet]
  cases h : c.entries.lookup (generateKey id kind) with
  | none => exact ⟨fun k _ => rfl, Or.inl h⟩
  | some entry =>
    dsimp only
    by_cases he : t - entry.timestamp > c.cacheDuration
    · rw [if_pos he]
      refine ⟨fun k hk => lookup_mapDelete_ne _ _ _ hk, Or.inr ?_⟩
      exact ⟨lookup_mapDelete_self _ _, entry, rfl, he⟩
    · rw [if_neg he]
      exact ⟨fun k _ => rfl, Or.inl h⟩

theorem makeRequest_typeError (msg : String) :
    makeRequest (.threw ⟨"TypeError", msg⟩) = .error NETWORK_ERROR := by
  simp [makeRequest, makeRequestCore, classifyCatch]

theorem makeRequest_429 (body : Except JsError OwnedGamesBody) :
    makeRequest (.reply false 429 body) = .error RATE_LIMIT_EXCEEDED := by
  have h : classifyCatch RATE_LIMIT_EXCEEDED = RATE_LIMIT_EXCEEDED := by decide
  simp [makeRequest, makeRequestCore, h]

theorem makeRequest_403 (body : Except JsError OwnedGamesBody) :
    makeRequest (.reply false 403 body) = .error PRIVATE_PROFILE := by
  have h : classifyCatch PRIVATE_PROFILE = PRIVATE_PROFILE := by decide
  simp [makeRequest, makeRequestCore, h]

theorem makeRequest_other (status : Int) (body : Except JsError OwnedGamesBody)
    (h429 : status ≠ 429) (h403 : status ≠ 403) :
    makeRequest (.reply false status body) = .error API_UNAVAILABLE := by
  have h : classifyCatch API_UNAVAILABLE = API_UNAVAILABLE := by decide
  have b429 : (status == 429) = false := by simpa [beq_eq_false_iff_ne] using h429
  have b403 : (status == 403) = false := by simpa [beq_eq_false_iff_ne] using h403
  simp [makeRequest, makeRequestCore, b429, b403, h]

theorem makeRequest_ok (status : Int) (body : OwnedGamesBody) :
    makeRequest (.reply true status (.ok body)) = .ok body := by
  simp [makeRequest, makeRequestCore]

theorem computeOverlaps_eq_spec (requested : Nat) (libraries : List LibEntry) :
    computeOverlaps requested libraries = specOverlap requested libraries := by
  cases libraries with
  | nil => rfl
  | cons first rest =>
    simp only [computeOverlaps, specOverlap]
    congr 1
    apply List.filter_congr
    intro g _
    rw [Bool.eq_iff_iff]
    simp [List.all_eq_true, List.any_eq_true, beq_iff_eq]

theorem specOverlap_ownedBy (requested : Nat) (libraries : List LibEntry)
    (r : OverlapGame) (h : r ∈ specOverlap requested libraries) :
    r.ownedBy = requested := by
  cases libraries with
  | nil => simp [specOverlap] at h
  | cons first rest =>
    simp only [specOverlap, List.mem_map] at h
    obtain ⟨g, _, rfl⟩ := h
    rfl

theorem getOwnedGames_network_path (st : ApiState) (id : String) (t : TransportOutcome)
    (now : Int) (hv : validateSteamIdStr id = true)
    (hc : (cacheGet st.gamesCache id "games" now).1 = none) :
    getOwnedGames st id true t now =
      (let st2 : ApiState :=
        { st with
          gamesCache := (cacheGet st.gamesCache id "games" now).2
          requestCount := st.requestCount + 1
          lastRequestTime := now
          transportCalls := st.transportCalls + 1 }
       match makeRequest t with
       | .error e => (.error e, st2)
       | .ok data =>
         match data.response with
         | none => (.error PRIVATE_PROFILE, st2)
         | some r =>
           match r.games with
           | none => (.error PRIVATE_PROFILE, st2)
           | some gs =>
             let snap : Snapshot := ⟨id, jsOr r.game_count 0, gs, now⟩
             (.ok snap,
              { st2 with gamesCache := cacheSet st2.gamesCache id snap "games" now })) := by
  simp only [getOwnedGames, hv, Bool.not_true, Bool.false_eq_true, if_false, if_true, hc]

theorem getOwnedGames_nocache (st : ApiState) (id : String) (t : TransportOutcome)
    (now : Int) (hv : validateSteamIdStr id = true) :
    getOwnedGames st id false t now =
      (let st2 : ApiState :=
        { st with
          requestCount := st.requestCount + 1
          lastRequestTime := now
          transportCalls := st.transportCalls + 1 }
       match makeRequest t with
       | .error e => (.error e, st2)
       | .ok data =>
         match data.response with
         | none => (.error PRIVATE_PROFILE, st2)
         | some r =>
           match r.games with
           | none => (.error PRIVATE_PROFILE, st2)
           | some gs =>
             let snap : Snapshot := ⟨id, jsOr r.game_count 0, gs, now⟩
             (.ok snap,
              { st2 with gamesCache := cacheSet st2.gamesCache id snap "games" now })) := by
  simp only [getOwnedGames, hv, Bool.not_true, Bool.false_eq_true, if_false]

theorem getOwnedGames_hit (st : ApiState) (id : String) (t : TransportOutcome)
    (now : Int) (snap : Snapshot) (hv : validateSteamIdStr id = true)
    (hc : (cacheGet st.gamesCache id "games" now).1 = some snap) :
    getOwnedGames st id true t now =
      (.ok snap, { st with gamesCache := (cacheGet st.gamesCache id "games" now).2 }) := by
  simp only [getOwnedGames, hv, Bool.not_true, Bool.false_eq_true, if_false, if_true, hc]

theorem isSteamIdFormat_iff (s : String) : isSteamIdFormat s = true ↔ Is17DigitString s := by
  simp [isSteamIdFormat, Is17DigitString, List.all_eq_true, char_isDigit_iff]

/-! ## Claim theorems -/

/-- C2, counterexample: the claim says every non-string input yields `false`,
but the validator coerces its argument to a string first, so the non-string
number `10000000000000000` (whose JS rendering `String(1e16)` is the 17-digit
numeral `"10000000000000000"`) is accepted. -/
theorem c2_numeric_input_counterexample :
    validateSteamId (JSValue.num 10000000000000000) = true := by decide

/-- C2, amended: `validateSteamId` never throws and returns true iff the
JavaScript string coercion of its argument is exactly 17 decimal digits; in
particular a string is accepted iff it is 17 decimal digits, and `null`,
`undefined` and booleans are always rejected, but a non-string whose string
coercion is 17 digits (such as the number `10^16`) is accepted. -/
theorem c2_validate_amended :
    (∀ v : JSValue, validateSteamId v = true ↔ Is17DigitString (jsToString v)) ∧
    (∀ s : String, validateSteamIdStr s = true ↔ Is17DigitString s) ∧
    validateSteamId .null = false ∧
    validateSteamId .undef = false ∧
    (∀ b : Bool, validateSteamId (.boolean b) = false) := by
  refine ⟨fun v => isSteamIdFormat_iff _, fun s => isSteamIdFormat_iff _, by decide, by decide, ?_⟩
  intro b
  cases b <;> decide

/-- C2 witness: the amended equivalence applied to the repo's canonical
17-digit identifier. -/
theorem c2_amended_witness : validateSteamIdStr vid = true :=
  (c2_validate_amended.2.1 vid).mpr (by decide)

/-- C4: for a valid identifier that reaches the network step (cache miss),
the request outcome is classified into the closed taxonomy: a transport-level
exception (a `TypeError`, which is what a `fetch` connection/DNS failure
rejects with) maps to `NETWORK_ERROR`, HTTP 429 to `RATE_LIMIT_EXCEEDED`,
HTTP 403 to `PRIVATE_PROFILE`, and any other non-ok status to
`API_UNAVAILABLE`. -/
theorem c4_error_taxonomy :
    ∀ (st : ApiState) (id : String) (now : Int),
      validateSteamIdStr id = true →
      (cacheGet st.gamesCache id "games" now).1 = none →
      (∀ msg, (getOwnedGames st id true (.threw ⟨"TypeError", msg⟩) now).1 =
        .error NETWORK_ERROR) ∧
      (∀ body, (getOwnedGames st id true (.reply false 429 body) now).1 =
        .error RATE_LIMIT_EXCEEDED) ∧
      (∀ body, (getOwnedGames st id true (.reply false 403 body) now).1 =
        .error PRIVATE_PROFILE) ∧
      (∀ status body, status ≠ 429 → status ≠ 403 →
        (getOwnedGames st id true (.reply false status body) now).1 =
          .error API_UNAVAILABLE) := by
  intro st id now hv hc
  refine ⟨?_, ?_, ?_, ?_⟩
  · intro msg
    rw [getOwnedGames_network_path st id _ now hv hc, makeRequest_typeError]
  · intro body
    rw [getOwnedGames_network_path st id _ now hv hc, makeRequest_429]
  · intro body
    rw [getOwnedGames_network_path st id _ now hv hc, makeRequest_403]
  · intro status body h1 h2
    rw [getOwnedGames_network_path st id _ now hv hc, makeRequest_other status body h1 h2]

/-- C4 witness: the taxonomy applied at a concrete cache-missing state with a
non-ok status 500 reply. -/
theorem c4_error_taxonomy_witness :
    validateSteamIdStr vid = true ∧
    (cacheGet emptySt.gamesCache vid "games" 0).1 = none ∧
    (getOwnedGames emptySt vid true (.reply false 500 (.ok ⟨none⟩)) 0).1 =
      .error API_UNAVAILABLE :=
  ⟨by decide, by decide,
   (c4_error_taxonomy emptySt vid 0 (by decide) (by decide)).2.2.2 500 (.ok ⟨none⟩)
     (by decide) (by decide)⟩

/-- C8: `findOverlappingGames` with an absent list, the empty list, or any
list of fewer than two identifiers fails with the insufficient-identifiers
error and leaves the threaded state untouched — no library fetch happens. -/
theorem c8_insufficient_ids :
    ∀ (σ : Type) (fetch : String → σ → Except JsError Snapshot × σ) (s : σ),
      findOverlappingGames fetch none s = (.error INSUFFICIENT_IDS, s) ∧
      (∀ ids : List String, ids.length < 2 →
        findOverlappingGames fetch (some ids) s = (.error INSUFFICIENT_IDS, s)) ∧
      findOverlappingGames fetch (some []) s = (.error INSUFFICIENT_IDS, s) ∧
      (∀ id : String,
        findOverlappingGames fetch (some [id]) s = (.error INSUFFICIENT_IDS, s)) := by
  intro σ fetch s
  refine ⟨rfl, ?_, rfl, fun id => rfl⟩
  intro ids h
  simp only [findOverlappingGames]
  rw [if_pos h]

/-- C8 witness: one identifier over a fetch that counts its invocations; the
counter stays at its initial value, so no fetch was attempted. -/
theorem c8_insufficient_ids_witness :
    [vid].length < 2 ∧
    findOverlappingGames countFetch (some [vid]) 0 = (.error INSUFFICIENT_IDS, 0) :=
  ⟨by decide, (c8_insufficient_ids Nat countFetch 0).2.1 [vid] (by decide)⟩

/-- C9: the overlap result is not deduplicated by application id: with a
first library holding two records with appid 730 that also occurs in the
second library, the result holds two records with the same appid. -/
theorem c9_no_dedup :
    (findOverlappingGames fetchDup (some [vid, vid2]) ()).1 =
      .ok [⟨730, "Counter-Strike 2", some "icon730", 2⟩,
           ⟨730, "Counter-Strike 2", some "icon730b", 2⟩] := by decide

/-- C1, counterexample: the claim says a well-formed ok body whose games list
is empty (`{response: {games: []}}`) is treated like HTTP 403
(`PRIVATE_PROFILE`), but an empty array is truthy in JavaScript, so
`getOwnedGames` succeeds with an empty snapshot instead. -/
theorem c1_empty_games_counterexample :
    (getOwnedGames emptySt vid true (.reply true 200 (.ok ⟨some ⟨none, some []⟩⟩)) 0).1 =
      .ok ⟨vid, 0, [], 0⟩ ∧
    ¬((getOwnedGames emptySt vid true (.reply true 200 (.ok ⟨some ⟨none, some []⟩⟩)) 0).1 =
      .error PRIVATE_PROFILE) := by
  exact ⟨by decide, by decide⟩

/-- C1, amended: for a valid identifier with no usable cache entry and an ok
response, `getOwnedGames` fails with `PRIVATE_PROFILE` exactly when the body
lacks a games collection (absent `response` or absent `games`); a well-formed
body with a present-but-empty games list instead succeeds with a snapshot
holding zero games. -/
theorem c1_games_absent_amended :
    ∀ (st : ApiState) (id : String) (now status : Int) (body : OwnedGamesBody),
      validateSteamIdStr id = true →
      (cacheGet st.gamesCache id "games" now).1 = none →
      ((body.response = none ∨ ∃ r, body.response = some r ∧ r.games = none) →
        (getOwnedGames st id true (.reply true status (.ok body)) now).1 =
          .error PRIVATE_PROFILE) ∧
      (∀ r, body.response = some r → r.games = some [] →
        (getOwnedGames st id true (.reply true status (.ok body)) now).1 =
          .ok ⟨id, jsOr r.game_count 0, [], now⟩) := by
  intro st id now status body hv hc
  constructor
  · intro habs
    rw [getOwnedGames_network_path st id _ now hv hc, makeRequest_ok]
    rcases habs with h | ⟨r, hr, hg⟩
    · simp [h]
    · simp [hr, hg]
  · intro r hr hg
    rw [getOwnedGames_network_path st id _ now hv hc, makeRequest_ok]
    simp [hr, hg]

/-- C1 witness: the amended theorem applied at a concrete absent-games body. -/
theorem c1_amended_witness :
    validateSteamIdStr vid = true ∧
    (cacheGet emptySt.gamesCache vid "games" 0).1 = none ∧
    (getOwnedGames emptySt vid true (.reply true 200 (.ok ⟨some ⟨none, none⟩⟩)) 0).1 =
      .error PRIVATE_PROFILE :=
  ⟨by decide, by decide,
   (c1_games_absent_amended emptySt vid 0 200 ⟨some ⟨none, none⟩⟩ (by decide) (by decide)).1
     (Or.inr ⟨⟨none, none⟩, rfl, rfl⟩)⟩

/-- C3: for at least two identifiers, the result is exactly the spec's
intersection: one record per game of the first fetched library whose appid
occurs in every fetched library, `ownedBy` equal to the number of requested
identifiers, in first-library order; and on the spec's worked example
(A = {730, 570, 440}, B = {730, 570, 1086940}) the result is exactly the two
games 730 and 570 with `ownedBy = 2`. -/
theorem c3_overlap_correctness :
    (∀ (σ : Type) (fetch : String → σ → Except JsError Snapshot × σ) (ids : List String)
        (s : σ),
      2 ≤ ids.length →
        (findOverlappingGames fetch (some ids) s).1 =
          .ok (specOverlap ids.length (fetchLibraries fetch ids s).1) ∧
        ∀ r ∈ specOverlap ids.length (fetchLibraries fetch ids s).1,
          r.ownedBy = ids.length) ∧
    (findOverlappingGames fetchAB (some [vid, vid2]) ()).1 =
      .ok [⟨730, "Counter-Strike 2", some "icon730", 2⟩, ⟨570, "Dota 2", none, 2⟩] := by
  constructor
  · intro σ fetch ids s h2
    constructor
    · simp only [findOverlappingGames]
      rw [if_neg (by omega)]
      simp [computeOverlaps_eq_spec]
    · intro r hr
      exact specOverlap_ownedBy _ _ r hr
  · decide

/-- C3 witness: the general characterization applied to the worked example. -/
theorem c3_overlap_witness :
    2 ≤ [vid, vid2].length ∧
    (findOverlappingGames fetchAB (some [vid, vid2]) ()).1 =
      .ok (specOverlap 2 (fetchLibraries fetchAB [vid, vid2] ()).1) :=
  ⟨by decide, (c3_overlap_correctness.1 Unit fetchAB [vid, vid2] () (by decide)).1⟩

/-- C5: with at least two identifiers `findOverlappingGames` never raises —
it always returns an `ok` result; a failed individual fetch contributes an
empty game list and the loop continues; and concretely, when the second of
two fetches fails the result is the empty sequence. -/
theorem c5_partial_failure_tolerant :
    (∀ (σ : Type) (fetch : String → σ → Except JsError Snapshot × σ) (ids : List String)
        (s : σ),
      2 ≤ ids.length →
        ∃ out s1, findOverlappingGames fetch (some ids) s = (.ok out, s1)) ∧
    (∀ (σ : Type) (fetch : String → σ → Except JsError Snapshot × σ) (id : String)
        (rest : List String) (s : σ) (e : JsError),
      (fetch id s).1 = .error e →
        (fetchLibraries fetch (id :: rest) s).1 =
          ⟨id, []⟩ :: (fetchLibraries fetch rest (fetch id s).2).1) ∧
    (findOverlappingGames fetchFail2 (some [vid, vid2]) ()).1 = .ok [] := by
  refine ⟨?_, ?_, by decide⟩
  · intro σ fetch ids s h2
    refine ⟨computeOverlaps ids.length (fetchLibraries fetch ids s).1,
            (fetchLibraries fetch ids s).2, ?_⟩
    simp only [findOverlappingGames]
    rw [if_neg (by omega)]
  · intro σ fetch id rest s e he
    simp only [fetchLibraries, he]

/-- C5 witness: the no-raise property applied where the second fetch fails. -/
theorem c5_partial_failure_witness :
    2 ≤ [vid, vid2].length ∧
    ∃ out s1, findOverlappingGames fetchFail2 (some [vid, vid2]) () = (.ok out, s1) :=
  ⟨by decide, c5_partial_failure_tolerant.1 Unit fetchFail2 [vid, vid2] () (by decide)⟩

/-- C6: a payload stored at `t0` is returned unchanged by a read at `t` with
`t - t0 ≤ D`; a read with `t - t0 > D` returns nothing and evicts the entry,
so any subsequent read also returns nothing; a key never stored reads as
nothing. -/
theorem c6_cache_ttl :
    ∀ (α : Type) (c : GameCache α) (id kind : String) (payload : α) (t0 t t2 : Int),
      (t - t0 ≤ c.cacheDuration →
        (cacheGet (cacheSet c id payload kind t0) id kind t).1 = some payload) ∧
      (t - t0 > c.cacheDuration →
        (cacheGet (cacheSet c id payload kind t0) id kind t).1 = none ∧
        (cacheGet (cacheGet (cacheSet c id payload kind t0) id kind t).2 id kind t2).1 =
          none) ∧
      (c.entries.lookup (generateKey id kind) = none →
        (cacheGet c id kind t).1 = none) := by
  intro α c id kind payload t0 t t2
  refine ⟨?_, ?_, ?_⟩
  · intro h
    rw [cacheGet_set_fresh c id kind payload t0 t h]
  · intro h
    rw [cacheGet_set_expired c id kind payload t0 t h]
    exact ⟨rfl, by rw [cacheGet_absent _ id kind t2 (lookup_mapDelete_self _ _)]⟩
  · intro h
    rw [cacheGet_absent c id kind t h]

/-- C6 witness: store at time 0 with the one-hour TTL and read exactly at the
TTL boundary. -/
theorem c6_cache_ttl_witness :
    (3600000 : Int) - 0 ≤ (3600000 : Int) ∧
    (cacheGet (cacheSet (⟨[], 3600000⟩ : GameCache Nat) "a" 7 "games" 0) "a" "games"
      3600000).1 = some 7 :=
  ⟨by decide, (c6_cache_ttl Nat ⟨[], 3600000⟩ "a" "games" 7 0 3600000 0).1 (by decide)⟩

theorem getOwnedGames_nocache_transportCalls (st : ApiState) (id : String)
    (t : TransportOutcome) (now : Int) (hv : validateSteamIdStr id = true) :
    (getOwnedGames st id false t now).2.transportCalls = st.transportCalls + 1 := by
  rw [getOwnedGames_nocache st id t now hv]
  dsimp only
  cases makeRequest t with
  | error e => rfl
  | ok data =>
    dsimp only
    cases data.response with
    | none => rfl
    | some r =>
      dsimp only
      cases r.games with
      | none => rfl
      | some gs => rfl

theorem getOwnedGames_success (st : ApiState) (id : String) (now status : Int)
    (body : OwnedGamesBody) (r : OwnedGamesResponse) (gs : List RawGame)
    (hv : validateSteamIdStr id = true)
    (hc : (cacheGet st.gamesCache id "games" now).1 = none)
    (hr : body.response = some r) (hg : r.games = some gs) :
    getOwnedGames st id true (.reply true status (.ok body)) now =
      (.ok ⟨id, jsOr r.game_count 0, gs, now⟩,
       { st with
         gamesCache := cacheSet (cacheGet st.gamesCache id "games" now).2 id
           ⟨id, jsOr r.game_count 0, gs, now⟩ "games" now
         requestCount := st.requestCount + 1
         lastRequestTime := now
         transportCalls := st.transportCalls + 1 }) := by
  rw [getOwnedGames_network_path st id _ now hv hc, makeRequest_ok]
  simp [hr, hg]

theorem getOwnedGames_second_hit (st : ApiState) (id : String) (t : TransportOutcome)
    (t2 : Int) (snap : Snapshot) (hv : validateSteamIdStr id = true)
    (h2 : cacheGet st.gamesCache id "games" t2 = (some snap, st.gamesCache)) :
    getOwnedGames st id true t t2 = (.ok snap, st) := by
  rw [getOwnedGames_hit st id t t2 snap hv (by rw [h2])]
  rw [h2]

/-- C7: with caching disabled, two calls issue two transport calls whatever
the TTL state; with caching enabled, a cache-missing successful call followed
by a second call within the TTL issues exactly one transport call in total —
the second call returns the cached snapshot and leaves the whole state
(including the rate limiter's `requestCount`/`lastRequestTime`) untouched. -/
theorem c7_cache_bypass :
    (∀ (st : ApiState) (id : String) (t1 t2 : Int) (r1 r2 : TransportOutcome),
      validateSteamIdStr id = true →
        (getOwnedGames (getOwnedGames st id false r1 t1).2 id false r2 t2).2.transportCalls =
          st.transportCalls + 2) ∧
    (∀ (st : ApiState) (id : String) (t1 t2 status : Int) (body : OwnedGamesBody)
        (r : OwnedGamesResponse) (gs : List RawGame) (resp2 : TransportOutcome),
      validateSteamIdStr id = true →
      (cacheGet st.gamesCache id "games" t1).1 = none →
      body.response = some r →
      r.games = some gs →
      t2 - t1 ≤ st.gamesCache.cacheDuration →
        (getOwnedGames st id true (.reply true status (.ok body)) t1).1 =
          .ok ⟨id, jsOr r.game_count 0, gs, t1⟩ ∧
        (getOwnedGames st id true (.reply true status (.ok body)) t1).2.transportCalls =
          st.transportCalls + 1 ∧
        getOwnedGames (getOwnedGames st id true (.reply true status (.ok body)) t1).2 id
            true resp2 t2 =
          (.ok ⟨id, jsOr r.game_count 0, gs, t1⟩,
           (getOwnedGames st id true (.reply true status (.ok body)) t1).2)) := by
  constructor
  · intro st id t1 t2 r1 r2 hv
    rw [getOwnedGames_nocache_transportCalls _ id r2 t2 hv,
        getOwnedGames_nocache_transportCalls st id r1 t1 hv]
  · intro st id t1 t2 status body r gs resp2 hv hc hr hg httl
    have h1 := getOwnedGames_success st id t1 status body r gs hv hc hr hg
    rw [h1]
    refine ⟨rfl, rfl, ?_⟩
    have hdur : (cacheGet st.gamesCache id "games" t1).2.cacheDuration =
        st.gamesCache.cacheDuration := cacheGet_snd_duration _ _ _ _
    have hfresh := cacheGet_set_fresh (cacheGet st.gamesCache id "games" t1).2 id "games"
      (⟨id, jsOr r.game_count 0, gs, t1⟩ : Snapshot) t1 t2 (by rw [hdur]; exact httl)
    exact getOwnedGames_second_hit _ id resp2 t2 _ hv hfresh

/-- C7 witness: a concrete successful fetch at time 0 followed by a second
call at time 10 with an unusable transport; the second call returns the
cached snapshot and changes nothing. -/
theorem c7_cache_bypass_witness :
    validateSteamIdStr vid = true ∧
    getOwnedGames
        (getOwnedGames emptySt vid true
          (.reply true 200 (.ok ⟨some ⟨some 2, some [gameA1, gameA2]⟩⟩)) 0).2 vid true
        (.threw ⟨"TypeError", "x"⟩) 10 =
      (.ok ⟨vid, 2, [gameA1, gameA2], 0⟩,
       (getOwnedGames emptySt vid true
         (.reply true 200 (.ok ⟨some ⟨some 2, some [gameA1, gameA2]⟩⟩)) 0).2) :=
  ⟨by decide,
   (c7_cache_bypass.2 emptySt vid 0 10 200 ⟨some ⟨some 2, some [gameA1, gameA2]⟩⟩
     ⟨some 2, some [gameA1, gameA2]⟩ [gameA1, gameA2] (.threw ⟨"TypeError", "x"⟩)
     (by decide) (by decide) rfl rfl (by decide)).2.2⟩

theorem getOwnedGames_error_gamesCache (st : ApiState) (id : String) (useCache : Bool)
    (t : TransportOutcome) (now : Int) (e : JsError)
    (h : (getOwnedGames st id useCache t now).1 = .error e) :
    (getOwnedGames st id useCache t now).2.gamesCache = st.gamesCache ∨
    (getOwnedGames st id useCache t now).2.gamesCache =
      (cacheGet st.gamesCache id "games" now).2 := by
  by_cases hv : validateSteamIdStr id = true
  · cases useCache with
    | false =>
      rw [getOwnedGames_nocache st id t now hv] at h ⊢
      dsimp only at h ⊢
      cases hm : makeRequest t with
      | error e2 => exact Or.inl rfl
      | ok data =>
        rw [hm] at h
        dsimp only at h ⊢
        cases hdr : data.response with
        | none => exact Or.inl rfl
        | some r =>
          rw [hdr] at h
          dsimp only at h ⊢
          cases hgs : r.games with
          | none => exact Or.inl rfl
          | some gs =>
            rw [hgs] at h
            dsimp only at h
            exact Except.noConfusion h
    | true =>
      cases hcc : (cacheGet st.gamesCache id "games" now).1 with
      | some snap =>
        rw [getOwnedGames_hit st id t now snap hv hcc] at h
        exact Except.noConfusion h
      | none =>
        rw [getOwnedGames_network_path st id t now hv hcc] at h ⊢
        dsimp only at h ⊢
        cases hm : makeRequest t with
        | error e2 => exact Or.inr rfl
        | ok data =>
          rw [hm] at h
          dsimp only at h ⊢
          cases hdr : data.response with
          | none => exact Or.inr rfl
          | some r =>
            rw [hdr] at h
            dsimp only at h ⊢
            cases hgs : r.games with
            | none => exact Or.inr rfl
            | some gs =>
              rw [hgs] at h
              dsimp only at h
              exact Except.noConfusion h
  · have hinv : getOwnedGames st id useCache t now = (.error INVALID_STEAM_ID, st) := by
      simp only [getOwnedGames]
      rw [if_pos]
      simp [Bool.not_eq_true] at hv
      simp [hv]
    rw [hinv]
    exact Or.inl rfl

/-- C10, counterexample: the claim says a failing call leaves every existing
cache entry unchanged, but a failing call that finds an expired entry for
`(identifier, "games")` during its cache lookup lazily evicts that entry:
here the entry written at time 0 is gone after a failed call at time
3600001. -/
theorem c10_eviction_counterexample :
    (getOwnedGames stExp vid true (.threw ⟨"TypeError", "boom"⟩) 3600001).1 =
      .error NETWORK_ERROR ∧
    stExp.gamesCache.entries.lookup (generateKey vid "games") = some ⟨snapOld, 0⟩ ∧
    (getOwnedGames stExp vid true
      (.threw ⟨"TypeError", "boom"⟩) 3600001).2.gamesCache.entries.lookup
      (generateKey vid "games") = none :=
  ⟨by decide, by decide, by decide⟩

/-- C10, amended: a failing `getOwnedGames` call never writes or updates a
cache entry: every key other than `(identifier, "games")` is untouched, and
the `(identifier, "games")` key is either untouched or — the one mutation a
failed call can make — lazily evicted because it was already expired at call
time.  The cache write happens only on the success path. -/
theorem c10_failure_no_write_amended :
    ∀ (st : ApiState) (id : String) (useCache : Bool) (t : TransportOutcome) (now : Int)
      (e : JsError),
      (getOwnedGames st id useCache t now).1 = .error e →
      (getOwnedGames st id useCache t now).2.gamesCache.cacheDuration =
        st.gamesCache.cacheDuration ∧
      (∀ k, k ≠ generateKey id "games" →
        (getOwnedGames st id useCache t now).2.gamesCache.entries.lookup k =
          st.gamesCache.entries.lookup k) ∧
      ((getOwnedGames st id useCache t now).2.gamesCache.entries.lookup
          (generateKey id "games") =
        st.gamesCache.entries.lookup (generateKey id "games") ∨
       ((getOwnedGames st id useCache t now).2.gamesCache.entries.lookup
            (generateKey id "games") = none ∧
        ∃ entry, st.gamesCache.entries.lookup (generateKey id "games") = some entry ∧
          now - entry.timestamp > st.gamesCache.cacheDuration)) := by
  intro st id useCache t now e h
  rcases getOwnedGames_error_gamesCache st id useCache t now e h with hsame | hget
  · rw [hsame]
    exact ⟨rfl, fun k _ => rfl, Or.inl rfl⟩
  · rw [hget]
    exact ⟨cacheGet_snd_duration _ _ _ _, (cacheGet_snd_spec _ _ _ _).1,
           (cacheGet_snd_spec _ _ _ _).2⟩

/-- C10 witness: the amended theorem applied at a concrete failing call (HTTP
500 on an empty cache). -/
theorem c10_amended_witness :
    (getOwnedGames emptySt vid true (.reply false 500 (.ok ⟨none⟩)) 0).1 =
      .error API_UNAVAILABLE ∧
    (∀ k, k ≠ generateKey vid "games" →
      (getOwnedGames emptySt vid true
        (.reply false 500 (.ok ⟨none⟩)) 0).2.gamesCache.entries.lookup k =
        emptySt.gamesCache.entries.lookup k) :=
  ⟨by decide,
   (c10_failure_no_write_amended emptySt vid true (.reply false 500 (.ok ⟨none⟩)) 0
     API_UNAVAILABLE (by decide)).2.1⟩
